import Mathlib

/-!
Shallow embedding of the state synchronization and aggregation layer of the
`dali2_iot` integration: the coordinator's snapshot and group aggregation
(`coordinator.py`) and the light entities' optimistic overlay, state reads and
command payload construction (`light.py`).  Python dicts are modelled as
insertion-ordered association lists and `int()` as truncation toward zero.
Numbers are exact rationals, except that the brightness conversions, where the
program's binary64 rounding is observable (the float literal 2.55 lies strictly
below 51/20), are computed in a binary64 model (`F64`) with round-to-nearest,
ties-to-even, validated against CPython's results.
-/

/-- A Python status value as stored under a feature's `"status"` key:
a boolean (`switchable`), a number (`dimmable`, `colorKelvin`), or an
RGB dict of 0-1 channel values (`colorRGB`). -/
inductive PyVal where
  | bool (b : Bool)
  | num (q : ℚ)
  | rgb (r g b : ℚ)
deriving DecidableEq

/-- Python truthiness of a status value. -/
def PyVal.truthy : PyVal → Bool
  | .bool b => b
  | .num q => decide (q ≠ 0)
  | .rgb _ _ _ => true

/-- Numeric coercion of a status value, as Python arithmetic applies it. -/
def PyVal.toNum : PyVal → ℚ
  | .bool b => if b then 1 else 0
  | .num q => q
  | .rgb _ _ _ => 0

/-- The `"r"` channel of an RGB status dict (`color.get("r", 0)`). -/
def PyVal.rgbR : PyVal → ℚ
  | .rgb r _ _ => r
  | _ => 0

/-- The `"g"` channel of an RGB status dict (`color.get("g", 0)`). -/
def PyVal.rgbG : PyVal → ℚ
  | .rgb _ g _ => g
  | _ => 0

/-- The `"b"` channel of an RGB status dict (`color.get("b", 0)`). -/
def PyVal.rgbB : PyVal → ℚ
  | .rgb _ _ b => b
  | _ => 0

/-- Python `int()` on a real number: truncation toward zero. -/
def pyInt (q : ℚ) : Int := if 0 ≤ q then ⌊q⌋ else -⌊-q⌋

/-- Lookup in an insertion-ordered dict: the value at the first matching key. -/
def alookup {K V : Type} [DecidableEq K] : List (K × V) → K → Option V
  | [], _ => none
  | (k, v) :: rest, k' => if k' = k then some v else alookup rest k'

/-- Replace the value stored at the first occurrence of a key, if present. -/
def aupdate {K V : Type} [DecidableEq K] : List (K × V) → K → (V → V) → List (K × V)
  | [], _, _ => []
  | (k, v) :: rest, k', f => if k' = k then (k, f v) :: rest else (k, v) :: aupdate rest k' f

/-- Left-biased choice on options (Python `x if x is not None else y` shape,
used to phrase dict-lookup fallbacks). -/
def oget {α : Type} : Option α → Option α → Option α
  | some x, _ => some x
  | none, b => b

/-- A device feature's record; the integration reads only its `"status"` entry,
which may be absent. -/
structure FeatureData where
  status : Option PyVal
deriving DecidableEq

/-- A device entry of the `/devices` response, with the keys the core reads.
Keys that Python accesses through `.get` and that may be absent are `Option`. -/
structure Device where
  id : Option Int
  name : Option String
  address : Option Int
  groups : List Int
  features : List (String × FeatureData)
deriving DecidableEq

/-- A group member record as built by `_extract_groups_from_devices`. -/
structure Member where
  id : Option Int
  name : String
  features : List (String × FeatureData)
deriving DecidableEq

/-- A group record as built by `_extract_groups_from_devices`. -/
structure DaliGroup where
  id : Int
  name : String
  members : List Member
  features : List (String × FeatureData)
deriving DecidableEq

/-- Python `str` of an optional integer, as an f-string renders it. -/
def pyShowOptInt : Option Int → String
  | some n => toString n
  | none => "None"

/-- `device.get("address", device_id)`: the DALI address with fallback to the id. -/
def Device.memberId (d : Device) : Option Int :=
  match d.address with
  | some a => some a
  | none => d.id

/-- The member record `_extract_groups_from_devices` appends for a device. -/
def mkMember (d : Device) : Member :=
  { id := d.memberId
  , name := d.name.getD ("Device " ++ pyShowOptInt d.memberId)
  , features := d.features }

/-- Merge a device's features into a group's feature dict: a feature name
already present is kept, a new one is appended (first writer wins). -/
def mergeFeatures (gfs dfs : List (String × FeatureData)) : List (String × FeatureData) :=
  dfs.foldl (fun acc fd => if (alookup acc fd.1).isSome then acc else acc ++ [fd]) gfs

/-- The lazily created empty group record. -/
def emptyGroup (gid : Int) : DaliGroup :=
  { id := gid, name := "DALI Group " ++ toString gid, members := [], features := [] }

/-- One iteration of the inner `for group_id in device_groups` loop of
`_extract_groups_from_devices`: ensure the group exists, append the member
record, merge the device's features. -/
def addToGroup (device : Device) (gs : List (Int × DaliGroup)) (gid : Int) : List (Int × DaliGroup) :=
  let gs1 := if (alookup gs gid).isSome then gs else gs ++ [(gid, emptyGroup gid)]
  aupdate gs1 gid (fun g =>
    { g with members := g.members ++ [mkMember device]
           , features := mergeFeatures g.features device.features })

/-- Process one device of the outer loop of `_extract_groups_from_devices`. -/
def processDevice (gs : List (Int × DaliGroup)) (device : Device) : List (Int × DaliGroup) :=
  device.groups.foldl (addToGroup device) gs

/-- `Dali2IotCoordinator._extract_groups_from_devices`. -/
def extract_groups_from_devices (devices : List Device) : List (Int × DaliGroup) :=
  devices.foldl processDevice []

/-- The coordinator's stored state: `_devices` and `_groups`. -/
structure CoordState where
  devices : List Device
  groups : List (Int × DaliGroup)
deriving DecidableEq

/-- `Dali2IotCoordinator.get_device`: first device whose `"id"` equals the key. -/
def get_device : List Device → Option Int → Option Device
  | [], _ => none
  | d :: rest, did => if d.id = did then some d else get_device rest did

/-- `Dali2IotCoordinator.get_group`. -/
def get_group (gs : List (Int × DaliGroup)) (gid : Int) : Option DaliGroup :=
  alookup gs gid

/-- `Dali2IotCoordinator._async_update_data`: a successful fetch replaces the
snapshot wholesale and recomputes groups; a fetch that raises propagates the
error before any assignment, leaving the stored state untouched. -/
def coordinator_update (st : CoordState) (fetch : Except Unit (List Device)) :
    CoordState × Except Unit Unit :=
  match fetch with
  | .error e => (st, .error e)
  | .ok devices => ({ devices := devices, groups := extract_groups_from_devices devices }, .ok ())

/-- The per-entity optimistic dict `_optimistic_state`.  The integration only
ever writes the keys `"switchable"` and `"brightness"` into it, so it is
modelled as a record of two optional fields (a `none` field is an absent key). -/
structure OptState where
  switchable : Option Bool
  brightness : Option Int
deriving DecidableEq

/-- The empty optimistic dict (`{}` / after `.clear()`). -/
def OptState.empty : OptState := { switchable := none, brightness := none }

/-- The mutable state of a `Dali2IotLight` entity relevant to state reads. -/
structure LightState where
  device_id : Int
  opt : OptState
  optTs : ℚ
deriving DecidableEq

/-- `Dali2IotLight._is_optimistic_state_valid`: `time.time() - ts < 5.0`. -/
def is_optimistic_state_valid (now ts : ℚ) : Bool := decide (now - ts < 5)

/-- A binary64 float in the normal range: zero when the mantissa is zero, else
value `(-1)^sign * m * 2^e` with `2^52 ≤ m < 2^53`.  Overflow and subnormals
are outside the range this program exercises and are not modelled. -/
structure F64 where
  sign : Bool
  m : Nat
  e : Int
deriving DecidableEq

/-- Floor of the base-2 logarithm, by fuel recursion so the kernel can reduce
it (the fuel `n` always suffices for input `n`). -/
def log2fuel : Nat → Nat → Nat
  | 0, _ => 0
  | f + 1, n => if n ≤ 1 then 0 else log2fuel f (n / 2) + 1

/-- `⌊log2 n⌋` for `n ≥ 1` (0 at 0). -/
def nlog2 (n : Nat) : Nat := log2fuel n n

/-- Decide `n / d ≥ 2^k` for naturals `n, d ≥ 1` and an integer `k`. -/
def gePow2 (n d : Nat) (k : Int) : Bool :=
  if 0 ≤ k then d * 2 ^ k.toNat ≤ n else d ≤ n * 2 ^ (-k).toNat

/-- Round the rational `(-1)^sign * (n / d) * 2^shift` (with `n, d ≥ 1`) to the
nearest binary64, ties to even: normalize `n / d` to a 53-bit mantissa, round
on the remainder, and renormalize a carried-out mantissa. -/
def roundPosRat (sign : Bool) (n d : Nat) (shift : Int) : F64 :=
  if n = 0 then ⟨false, 0, 0⟩ else
  let k : Int := (nlog2 n : Int) - (nlog2 d : Int)
  let E : Int := if gePow2 n d k then k else k - 1
  let s : Int := E - 52
  let N : Nat := if s ≤ 0 then n * 2 ^ (-s).toNat else n
  let D : Nat := if s ≤ 0 then d else d * 2 ^ s.toNat
  let m0 : Nat := N / D
  let r : Nat := N % D
  let m1 : Nat :=
    if 2 * r < D then m0
    else if D < 2 * r then m0 + 1
    else if m0 % 2 = 0 then m0 else m0 + 1
  if m1 = 2 ^ 53 then ⟨sign, 2 ^ 52, s + 1 + shift⟩ else ⟨sign, m1, s + shift⟩

/-- The float 0.0. -/
def F64.zero : F64 := ⟨false, 0, 0⟩

/-- The float nearest a rational (Python `float(q)` / a parsed JSON number). -/
def F64.ofRat (q : ℚ) : F64 := roundPosRat (decide (q < 0)) q.num.natAbs q.den 0

/-- The float nearest an integer (Python int-to-float conversion). -/
def F64.ofInt (i : Int) : F64 := roundPosRat (decide (i < 0)) i.natAbs 1 0

/-- Binary64 multiplication: round the exact product. -/
def F64.mul (a b : F64) : F64 :=
  roundPosRat (a.sign != b.sign) (a.m * b.m) 1 (a.e + b.e)

/-- Binary64 division: round the exact quotient (zero divisor gives zero; the
program never divides by zero here). -/
def F64.div (a b : F64) : F64 :=
  if b.m = 0 then F64.zero
  else roundPosRat (a.sign != b.sign) a.m b.m (a.e - b.e)

/-- Python `int()` on a float: truncation toward zero. -/
def F64.toIntTrunc (x : F64) : Int :=
  let mag : Nat := if 0 ≤ x.e then x.m * 2 ^ x.e.toNat else x.m / 2 ^ (-x.e).toNat
  if x.sign then -(mag : Int) else (mag : Int)

/-- The exact rational value of a float. -/
def F64.val (x : F64) : ℚ :=
  (if x.sign then -1 else 1) * (x.m : ℚ) * (2 : ℚ) ^ x.e

/-- The binary64 value of the program's literal `2.55`:
`5742089524897382 * 2^-51` (hex `0x1.4666666666666p+1`), strictly below
`51/20`. -/
def float2_55 : F64 := ⟨false, 5742089524897382, -51⟩

/-- The 0-100 to 0-255 brightness conversion `int(dim_value * 2.55)`: the
status float times binary64 2.55, rounded, then truncated. -/
def brightness_to_external (q : ℚ) : Int :=
  (F64.mul (F64.ofRat q) float2_55).toIntTrunc

/-- The 0-255 to 0-100 brightness conversion `kwargs[ATTR_BRIGHTNESS] / 2.55`:
a binary64 division; the payload carries the float's exact value. -/
def brightness_to_internal (b : Int) : ℚ :=
  (F64.div (F64.ofInt b) float2_55).val

/-- `features.get(name, {}).get("status", dflt)`. -/
def featureStatus (features : List (String × FeatureData)) (name : String) (dflt : PyVal) :
    PyVal :=
  match alookup features name with
  | some fd => fd.status.getD dflt
  | none => dflt

/-- The canonical-snapshot branch of `Dali2IotLight.is_on`. -/
def canonical_is_on (devices : List Device) (device_id : Int) : Bool :=
  match get_device devices (some device_id) with
  | some d => (featureStatus d.features "switchable" (.bool false)).truthy
  | none => false

/-- The canonical-snapshot branch of `Dali2IotLight.brightness`. -/
def canonical_brightness (devices : List Device) (device_id : Int) : Option Int :=
  match get_device devices (some device_id) with
  | some d =>
    match alookup d.features "dimmable" with
    | some fd => some (brightness_to_external (fd.status.getD (.num 0)).toNum)
    | none => none
  | none => none

/-- `Dali2IotLight.is_on`: the optimistic value while the overlay holds
`"switchable"` and is inside the window, the canonical value otherwise. -/
def Dali2IotLight.is_on (now : ℚ) (st : LightState) (devices : List Device) : Bool :=
  match st.opt.switchable with
  | some b =>
    if is_optimistic_state_valid now st.optTs then b else canonical_is_on devices st.device_id
  | none => canonical_is_on devices st.device_id

/-- `Dali2IotLight.brightness`. -/
def Dali2IotLight.brightness (now : ℚ) (st : LightState) (devices : List Device) : Option Int :=
  match st.opt.brightness with
  | some n =>
    if is_optimistic_state_valid now st.optTs then some n
    else canonical_brightness devices st.device_id
  | none => canonical_brightness devices st.device_id

/-- The keyword arguments of a turn-on service call that `async_turn_on` reads. -/
structure TurnOnKwargs where
  brightness : Option Int
  rgb_color : Option (Int × Int × Int)
  color_temp_kelvin : Option Int
  transition : Option ℚ
deriving DecidableEq

/-- `len([k for k in kwargs.keys() if k != ATTR_TRANSITION])`. -/
def kwargs_nontransition_count (kw : TurnOnKwargs) : Nat :=
  (if kw.brightness.isSome then 1 else 0) + (if kw.rgb_color.isSome then 1 else 0) +
    (if kw.color_temp_kelvin.isSome then 1 else 0)

/-- `ATTR_BRIGHTNESS in kwargs and len([...]) == 1`. -/
def brightness_only (kw : TurnOnKwargs) : Bool :=
  kw.brightness.isSome && (kwargs_nontransition_count kw == 1)

/-- The command payload dict `data` built by `async_turn_on` / `async_turn_off`. -/
structure CommandData where
  switchable : Option Bool
  dimmable : Option ℚ
  colorRGB : Option (ℚ × ℚ × ℚ)
  colorKelvin : Option Int
deriving DecidableEq

/-- `if not data` on the payload dict. -/
def CommandData.isEmpty (d : CommandData) : Bool :=
  d.switchable.isNone && d.dimmable.isNone && d.colorRGB.isNone && d.colorKelvin.isNone

/-- The payload construction of `async_turn_on` (identical in the device and
group entities): `switchable` only when the light is off or the call is not a
brightness-only change, plus converted brightness / RGB / kelvin fields. -/
def build_turn_on_data (current_is_on : Bool) (kw : TurnOnKwargs) : CommandData :=
  { switchable := if !current_is_on || !(brightness_only kw) then some true else none
  , dimmable := kw.brightness.map brightness_to_internal
  , colorRGB := kw.rgb_color.map (fun c =>
      ((c.1 : ℚ) / 255, (c.2.1 : ℚ) / 255, (c.2.2 : ℚ) / 255))
  , colorKelvin := kw.color_temp_kelvin }

/-- The payload of `async_turn_off`. -/
def turn_off_data : CommandData :=
  { switchable := some false, dimmable := none, colorRGB := none, colorKelvin := none }

/-- The observable outcome of one `async_turn_on` / `async_turn_off` call:
the final overlay dict and timestamp, the payload handed to the remote client
(`none` when no call was made), and the overlay contents at each
`async_write_ha_state` publication, in order. -/
structure StepResult where
  opt : OptState
  optTs : ℚ
  sent : Option CommandData
  published : List OptState
deriving DecidableEq

/-- `Dali2IotLight.async_turn_on`: read the displayed state, write the overlay
keys in place, publish, send the payload; a raising call clears the overlay
and republishes synchronously. -/
def Dali2IotLight.async_turn_on (now : ℚ) (st : LightState) (devices : List Device)
    (kw : TurnOnKwargs) (callFails : Bool) : StepResult :=
  let current_is_on := Dali2IotLight.is_on now st devices
  let opt1 : OptState := { switchable := some true, brightness := oget kw.brightness st.opt.brightness }
  let data := build_turn_on_data current_is_on kw
  if data.isEmpty then { opt := opt1, optTs := now, sent := none, published := [opt1] }
  else if callFails then
    { opt := OptState.empty, optTs := now, sent := some data, published := [opt1, OptState.empty] }
  else { opt := opt1, optTs := now, sent := some data, published := [opt1] }

/-- `Dali2IotLight.async_turn_off`. -/
def Dali2IotLight.async_turn_off (now : ℚ) (st : LightState) (callFails : Bool) : StepResult :=
  let opt1 : OptState := { switchable := some false, brightness := st.opt.brightness }
  if callFails then
    { opt := OptState.empty, optTs := now, sent := some turn_off_data
    , published := [opt1, OptState.empty] }
  else { opt := opt1, optTs := now, sent := some turn_off_data, published := [opt1] }

/-- The mutable state of a `Dali2IotGroupLight` entity relevant to state reads. -/
structure GroupState where
  group_id : Int
  opt : OptState
  optTs : ℚ
deriving DecidableEq

/-- One member's contribution test in `Dali2IotGroupLight.is_on`: the member's
device (looked up by the member's recorded id) has a truthy switchable status. -/
def member_is_on (devices : List Device) (m : Member) : Bool :=
  match get_device devices m.id with
  | some d => (featureStatus d.features "switchable" (.bool false)).truthy
  | none => false

/-- The member loop of `Dali2IotGroupLight.is_on`, with its early return. -/
def group_is_on_loop (devices : List Device) : List Member → Bool
  | [] => false
  | m :: rest => if member_is_on devices m then true else group_is_on_loop devices rest

/-- The canonical-snapshot branch of `Dali2IotGroupLight.is_on`. -/
def group_canonical_is_on (coord : CoordState) (gid : Int) : Bool :=
  match get_group coord.groups gid with
  | some g => group_is_on_loop coord.devices g.members
  | none => false

/-- `Dali2IotGroupLight.is_on`. -/
def Dali2IotGroupLight.is_on (now : ℚ) (st : GroupState) (coord : CoordState) : Bool :=
  match st.opt.switchable with
  | some b =>
    if is_optimistic_state_valid now st.optTs then b
    else group_canonical_is_on coord st.group_id
  | none => group_canonical_is_on coord st.group_id

/-- One member's converted brightness in `Dali2IotGroupLight.brightness`:
present only when the member's device is found and exposes `dimmable`. -/
def member_brightness (devices : List Device) (m : Member) : Option Int :=
  match get_device devices m.id with
  | some d =>
    match alookup d.features "dimmable" with
    | some fd => some (brightness_to_external (fd.status.getD (.num 0)).toNum)
    | none => none
  | none => none

/-- The `brightness_values` accumulation loop of `Dali2IotGroupLight.brightness`. -/
def collect_brightness (devices : List Device) : List Member → List Int
  | [] => []
  | m :: rest =>
    match member_brightness devices m with
    | some v => v :: collect_brightness devices rest
    | none => collect_brightness devices rest

/-- The canonical-snapshot branch of `Dali2IotGroupLight.brightness`:
`int(sum(brightness_values) / len(brightness_values))` when any were collected
(an exact integer sum, a binary64 true division, then truncation). -/
def group_canonical_brightness (coord : CoordState) (gid : Int) : Option Int :=
  match get_group coord.groups gid with
  | some g =>
    let vals := collect_brightness coord.devices g.members
    if vals = [] then none
    else some ((F64.div (F64.ofInt vals.sum) (F64.ofInt (vals.length : Int))).toIntTrunc)
  | none => none

/-- `Dali2IotGroupLight.brightness`. -/
def Dali2IotGroupLight.brightness (now : ℚ) (st : GroupState) (coord : CoordState) :
    Option Int :=
  match st.opt.brightness with
  | some n =>
    if is_optimistic_state_valid now st.optTs then some n
    else group_canonical_brightness coord st.group_id
  | none => group_canonical_brightness coord st.group_id

/-- One member's RGB contribution in `Dali2IotGroupLight.rgb_color`. -/
def member_rgb (devices : List Device) (m : Member) : Option (Int × Int × Int) :=
  match get_device devices m.id with
  | some d =>
    match alookup d.features "colorRGB" with
    | some fd =>
      let c := fd.status.getD (.rgb 0 0 0)
      some (pyInt (c.rgbR * 255), pyInt (c.rgbG * 255), pyInt (c.rgbB * 255))
    | none => none
  | none => none

/-- The first-member-wins loop of `Dali2IotGroupLight.rgb_color`. -/
def group_rgb_loop (devices : List Device) : List Member → Option (Int × Int × Int)
  | [] => none
  | m :: rest =>
    match member_rgb devices m with
    | some v => some v
    | none => group_rgb_loop devices rest

/-- `Dali2IotGroupLight.rgb_color` (no overlay branch in the source). -/
def Dali2IotGroupLight.rgb_color (coord : CoordState) (gid : Int) :
    Option (Int × Int × Int) :=
  match get_group coord.groups gid with
  | some g => group_rgb_loop coord.devices g.members
  | none => none

/-- One member's color-temperature contribution in `Dali2IotGroupLight.color_temp`. -/
def member_color_temp (devices : List Device) (m : Member) : Option Int :=
  match get_device devices m.id with
  | some d =>
    match alookup d.features "colorKelvin" with
    | some fd => some (pyInt (fd.status.getD (.num 4000)).toNum)
    | none => none
  | none => none

/-- The first-member-wins loop of `Dali2IotGroupLight.color_temp`. -/
def group_color_temp_loop (devices : List Device) : List Member → Option Int
  | [] => none
  | m :: rest =>
    match member_color_temp devices m with
    | some v => some v
    | none => group_color_temp_loop devices rest

/-- `Dali2IotGroupLight.color_temp` (no overlay branch in the source). -/
def Dali2IotGroupLight.color_temp (coord : CoordState) (gid : Int) : Option Int :=
  match get_group coord.groups gid with
  | some g => group_color_temp_loop coord.devices g.members
  | none => none

/-- `Dali2IotGroupLight.async_turn_on`, mirroring the device entity's flow with
the group's displayed state and a single group-addressed call. -/
def Dali2IotGroupLight.async_turn_on (now : ℚ) (st : GroupState) (coord : CoordState)
    (kw : TurnOnKwargs) (callFails : Bool) : StepResult :=
  let current_is_on := Dali2IotGroupLight.is_on now st coord
  let opt1 : OptState := { switchable := some true, brightness := oget kw.brightness st.opt.brightness }
  let data := build_turn_on_data current_is_on kw
  if data.isEmpty then { opt := opt1, optTs := now, sent := none, published := [opt1] }
  else if callFails then
    { opt := OptState.empty, optTs := now, sent := some data, published := [opt1, OptState.empty] }
  else { opt := opt1, optTs := now, sent := some data, published := [opt1] }

/-- `Dali2IotGroupLight.async_turn_off`. -/
def Dali2IotGroupLight.async_turn_off (now : ℚ) (st : GroupState) (callFails : Bool) :
    StepResult :=
  let opt1 : OptState := { switchable := some false, brightness := st.opt.brightness }
  if callFails then
    { opt := OptState.empty, optTs := now, sent := some turn_off_data
    , published := [opt1, OptState.empty] }
  else { opt := opt1, optTs := now, sent := some turn_off_data, published := [opt1] }

/-- The representative feature value the spec assigns to a group: the value of
the first device (in list order) that belongs to the group and carries the
feature. -/
def firstFeature : List Device → Int → String → Option FeatureData
  | [], _, _ => none
  | d :: rest, gid, fn =>
    if gid ∈ d.groups ∧ (alookup d.features fn).isSome then alookup d.features fn
    else firstFeature rest gid fn

/-- The member records a device list contributes to a group, in device order
(one record per occurrence of the group id in the device's `groups` list). -/
def memberContrib : List Device → Int → List Member
  | [], _ => []
  | d :: rest, gid => List.replicate (d.groups.count gid) (mkMember d) ++ memberContrib rest gid

/-- The feature value a group dict records for a feature name. -/
def groupFeature (gs : List (Int × DaliGroup)) (gid : Int) (fn : String) : Option FeatureData :=
  match alookup gs gid with
  | some g => alookup g.features fn
  | none => none

/-- The member list a group dict records for a group id. -/
def groupMembers (gs : List (Int × DaliGroup)) (gid : Int) : List Member :=
  match alookup gs gid with
  | some g => g.members
  | none => []

theorem oget_none_right {α : Type} (a : Option α) : oget a none = a := by
  cases a <;> rfl

theorem oget_assoc {α : Type} (a b c : Option α) :
    oget (oget a b) c = oget a (oget b c) := by
  cases a <;> cases b <;> rfl

theorem oget_oget_same {α : Type} (a b : Option α) : oget (oget a b) b = oget a b := by
  cases a <;> cases b <;> rfl

theorem alookup_append_single {K V : Type} [DecidableEq K]
    (xs : List (K × V)) (k : K) (v : V) (k' : K) :
    alookup (xs ++ [(k, v)]) k' = oget (alookup xs k') (if k' = k then some v else none) := by
  induction xs with
  | nil => by_cases h : k' = k <;> simp [alookup, oget, h]
  | cons p rest ih =>
    obtain ⟨k0, v0⟩ := p
    by_cases h : k' = k0 <;> simp [alookup, h, ih, oget]

theorem alookup_aupdate {K V : Type} [DecidableEq K]
    (xs : List (K × V)) (k : K) (f : V → V) (k' : K) :
    alookup (aupdate xs k f) k' =
      if k' = k then (alookup xs k).map f else alookup xs k' := by
  induction xs with
  | nil => simp [alookup, aupdate]
  | cons p rest ih =>
    obtain ⟨k0, v0⟩ := p
    by_cases hk : k = k0
    · subst hk
      by_cases h' : k' = k <;> simp [alookup, aupdate, h']
    · by_cases h' : k' = k0
      · subst h'
        simp [alookup, aupdate, hk, Ne.symm hk]
      · simp [alookup, aupdate, hk, h', ih]

theorem alookup_mergeFeatures (dfs : List (String × FeatureData)) :
    ∀ gfs fn, alookup (mergeFeatures gfs dfs) fn = oget (alookup gfs fn) (alookup dfs fn) := by
  induction dfs with
  | nil => intro gfs fn; simp [mergeFeatures, alookup, oget_none_right]
  | cons p rest ih =>
    intro gfs fn
    obtain ⟨k, v⟩ := p
    have step : mergeFeatures gfs ((k, v) :: rest)
        = mergeFeatures (if (alookup gfs k).isSome then gfs else gfs ++ [(k, v)]) rest := by
      simp [mergeFeatures, List.foldl_cons]
    rw [step, ih]
    cases hgk : alookup gfs k with
    | some w =>
      simp only [hgk, Option.isSome_some, if_true]
      by_cases hfk : fn = k
      · subst hfk; simp [alookup, hgk, oget]
      · simp [alookup, hfk]
    | none =>
      simp only [hgk, Option.isSome_none, Bool.false_eq_true, if_false, alookup_append_single]
      by_cases hfk : fn = k
      · subst hfk; simp [alookup, hgk, oget]
      · simp [alookup, hfk, oget_none_right]

theorem groupFeature_addToGroup (d : Device) (gs : List (Int × DaliGroup)) (gid' gid : Int)
    (fn : String) :
    groupFeature (addToGroup d gs gid') gid fn =
      if gid = gid' then oget (groupFeature gs gid fn) (alookup d.features fn)
      else groupFeature gs gid fn := by
  unfold addToGroup groupFeature
  cases hg' : alookup gs gid' with
  | some g =>
    simp only [hg', Option.isSome_some, if_true, alookup_aupdate]
    by_cases hg : gid = gid'
    · subst hg; simp [hg', alookup_mergeFeatures]
    · simp [hg]
  | none =>
    simp only [hg', Option.isSome_none, Bool.false_eq_true, if_false,
      alookup_aupdate, alookup_append_single]
    by_cases hg : gid = gid'
    · subst hg; simp [hg', oget, alookup_mergeFeatures, emptyGroup, alookup]
    · simp [hg, oget_none_right]

theorem groupFeature_foldl_addToGroup (d : Device) (gids : List Int) :
    ∀ gs gid fn, groupFeature (gids.foldl (addToGroup d) gs) gid fn =
      if gid ∈ gids then oget (groupFeature gs gid fn) (alookup d.features fn)
      else groupFeature gs gid fn := by
  induction gids with
  | nil => intro gs gid fn; simp
  | cons g0 rest ih =>
    intro gs gid fn
    rw [List.foldl_cons, ih]
    rw [groupFeature_addToGroup]
    by_cases h0 : gid = g0
    · subst h0
      by_cases hr : gid ∈ rest <;> simp [hr, oget_oget_same]
    · by_cases hr : gid ∈ rest <;> simp [hr, h0]

theorem groupFeature_foldl_processDevice (devices : List Device) :
    ∀ gs gid fn, groupFeature (devices.foldl processDevice gs) gid fn =
      oget (groupFeature gs gid fn) (firstFeature devices gid fn) := by
  induction devices with
  | nil => intro gs gid fn; simp [firstFeature, oget_none_right]
  | cons d rest ih =>
    intro gs gid fn
    rw [List.foldl_cons, ih]
    show oget (groupFeature (processDevice gs d) gid fn) (firstFeature rest gid fn) = _
    unfold processDevice
    rw [groupFeature_foldl_addToGroup]
    by_cases hg : gid ∈ d.groups
    · simp only [hg, if_true, oget_assoc]
      by_cases hs : (alookup d.features fn).isSome
      · obtain ⟨w, hw⟩ := Option.isSome_iff_exists.mp hs
        simp [firstFeature, hg, hs, hw, oget]
      · have hnone : alookup d.features fn = none := Option.not_isSome_iff_eq_none.mp hs
        simp [firstFeature, hg, hnone, oget]
    · simp [firstFeature, hg]

theorem groupMembers_addToGroup (d : Device) (gs : List (Int × DaliGroup)) (gid' gid : Int) :
    groupMembers (addToGroup d gs gid') gid =
      if gid = gid' then groupMembers gs gid ++ [mkMember d] else groupMembers gs gid := by
  unfold addToGroup groupMembers
  cases hg' : alookup gs gid' with
  | some g =>
    simp only [hg', Option.isSome_some, if_true, alookup_aupdate]
    by_cases hg : gid = gid'
    · subst hg; simp [hg']
    · simp [hg]
  | none =>
    simp only [hg', Option.isSome_none, Bool.false_eq_true, if_false,
      alookup_aupdate, alookup_append_single]
    by_cases hg : gid = gid'
    · subst hg; simp [hg', oget, emptyGroup]
    · simp [hg, oget_none_right]

theorem groupMembers_foldl_addToGroup (d : Device) (gids : List Int) :
    ∀ gs gid, groupMembers (gids.foldl (addToGroup d) gs) gid =
      groupMembers gs gid ++ List.replicate (gids.count gid) (mkMember d) := by
  induction gids with
  | nil => intro gs gid; simp
  | cons g0 rest ih =>
    intro gs gid
    rw [List.foldl_cons, ih, groupMembers_addToGroup]
    by_cases h0 : gid = g0
    · subst h0
      simp [List.count_cons_self, List.replicate_succ, List.append_assoc]
    · rw [if_neg h0, List.count_cons_of_ne h0]

theorem groupMembers_foldl_processDevice (devices : List Device) :
    ∀ gs gid, groupMembers (devices.foldl processDevice gs) gid =
      groupMembers gs gid ++ memberContrib devices gid := by
  induction devices with
  | nil => intro gs gid; simp [memberContrib]
  | cons d rest ih =>
    intro gs gid
    rw [List.foldl_cons, ih]
    show groupMembers (processDevice gs d) gid ++ memberContrib rest gid = _
    unfold processDevice
    rw [groupMembers_foldl_addToGroup, memberContrib, List.append_assoc]

/-- Feature record with a boolean status. -/
def fdBool (b : Bool) : FeatureData := ⟨some (.bool b)⟩

/-- Feature record with a numeric status. -/
def fdNum (q : ℚ) : FeatureData := ⟨some (.num q)⟩

/-- Example device A of the spec's aggregation test: in group 7 with
features switchable and dimmable. -/
def devA : Device :=
  { id := some 1, name := some "A", address := none, groups := [7]
  , features := [("switchable", fdBool true), ("dimmable", fdNum 50)] }

/-- Example device B of the spec's aggregation test: in group 7 with
feature switchable only. -/
def devB : Device :=
  { id := some 2, name := some "B", address := none, groups := [7]
  , features := [("switchable", fdBool false)] }

/-- Example device C of the spec's aggregation test: in no group. -/
def devC : Device :=
  { id := some 3, name := some "C", address := none, groups := []
  , features := [("switchable", fdBool true)] }

theorem mkMember_mem_memberContrib {devices : List Device} {d : Device} {gid : Int}
    (hd : d ∈ devices) (hg : gid ∈ d.groups) : mkMember d ∈ memberContrib devices gid := by
  induction devices with
  | nil => cases hd
  | cons d0 rest ih =>
    simp only [memberContrib]
    rcases List.mem_cons.mp hd with h | h
    · subst h
      exact List.mem_append.mpr
        (Or.inl (List.mem_replicate.mpr ⟨(List.count_pos_iff.mpr hg).ne', rfl⟩))
    · exact List.mem_append.mpr (Or.inr (ih h))

theorem groupMembers_mem_exists {gs : List (Int × DaliGroup)} {gid : Int} {m : Member}
    (h : m ∈ groupMembers gs gid) : ∃ g, alookup gs gid = some g ∧ m ∈ g.members := by
  unfold groupMembers at h
  cases hg : alookup gs gid with
  | some g => rw [hg] at h; exact ⟨g, rfl, h⟩
  | none => rw [hg] at h; cases h

/-- C1: the one-pass aggregation records, for each `(device, groupId)` pair,
a member entry whose id is the device's address (falling back to its id), the
members of each group being exactly the contributing devices in order, and the
group's feature value for each name is the one of the first contributing
device, never overwritten; on the spec's three-device example it yields
group 7 with exactly 2 members and feature set switchable, dimmable. -/
theorem group_aggregation_correct :
    (∀ (devices : List Device) (gid : Int),
        groupMembers (extract_groups_from_devices devices) gid = memberContrib devices gid)
  ∧ (∀ (devices : List Device) (gid : Int) (fn : String),
        groupFeature (extract_groups_from_devices devices) gid fn = firstFeature devices gid fn)
  ∧ (∀ (devices : List Device) (d : Device) (gid : Int), d ∈ devices → gid ∈ d.groups →
        ∃ g, get_group (extract_groups_from_devices devices) gid = some g ∧
          mkMember d ∈ g.members ∧ (mkMember d).id = d.memberId)
  ∧ (get_group (extract_groups_from_devices [devA, devB, devC]) 7).map
      (fun g => (g.members.length, g.features.map Prod.fst))
      = some (2, ["switchable", "dimmable"]) := by
  refine ⟨?_, ?_, ?_, by decide⟩
  · intro devices gid
    unfold extract_groups_from_devices
    rw [groupMembers_foldl_processDevice]
    simp [groupMembers, alookup]
  · intro devices gid fn
    unfold extract_groups_from_devices
    rw [groupFeature_foldl_processDevice]
    simp [groupFeature, alookup, oget]
  · intro devices d gid hd hg
    have hmem : mkMember d ∈ groupMembers (extract_groups_from_devices devices) gid := by
      unfold extract_groups_from_devices
      rw [groupMembers_foldl_processDevice]
      simpa [groupMembers, alookup] using mkMember_mem_memberContrib hd hg
    obtain ⟨g, hlook, hmm⟩ := groupMembers_mem_exists hmem
    exact ⟨g, hlook, hmm, rfl⟩

/-- Witness for C1 at the spec's example: device A's member record is in the
output's group 7, with its id being A's address-or-id. -/
theorem group_aggregation_correct_witness :
    ∃ g, get_group (extract_groups_from_devices [devA, devB, devC]) 7 = some g ∧
      mkMember devA ∈ g.members ∧ (mkMember devA).id = devA.memberId :=
  group_aggregation_correct.2.2.1 [devA, devB, devC] devA 7 (List.mem_cons_self _ _)
    (by decide)

/-- C4: when the device-list fetch raises, the coordinator's stored devices and
groups are unchanged: `get_device` and `get_group` answer exactly as before the
failed refresh, and the error is surfaced. -/
theorem refresh_failure_preserves_state (st : CoordState) (e : Unit) (did : Option Int)
    (gid : Int) :
    (coordinator_update st (.error e)).1 = st
  ∧ get_device (coordinator_update st (.error e)).1.devices did = get_device st.devices did
  ∧ get_group (coordinator_update st (.error e)).1.groups gid = get_group st.groups gid
  ∧ (coordinator_update st (.error e)).2 = .error e :=
  ⟨rfl, rfl, rfl, rfl⟩

set_option maxRecDepth 8000 in
/-- C8: the program's brightness conversion at the failing input: binary64 2.55
is strictly below 51/20, so `int(100 * 2.55)` truncates to 254, not the 255 the
claim (and the code's own "Convert 0-100 to 0-255" intent) requires; internal 0
converts to external 0 as claimed. -/
theorem brightness_full_scale_divergence :
    brightness_to_external 100 = 254 ∧ brightness_to_external 0 = 0 ∧
      F64.val float2_55 < 51 / 20 := by
  refine ⟨by decide, by decide, ?_⟩
  have h : F64.val float2_55 = 5742089524897382 / 2 ^ 51 := by
    rw [F64.val, float2_55]
    norm_num [zpow_neg]
  rw [h]
  norm_num

/-- C2: while the overlay holds a feature and less than 5 seconds have elapsed
since its write, reads return the overlay value regardless of the canonical
snapshot; once 5 seconds or more have elapsed, reads return the value derived
from the canonical snapshot. -/
theorem overlay_precedence (now : ℚ) (st : LightState) (devices : List Device) :
    (∀ b : Bool, st.opt.switchable = some b → now - st.optTs < 5 →
        Dali2IotLight.is_on now st devices = b)
  ∧ (∀ n : Int, st.opt.brightness = some n → now - st.optTs < 5 →
        Dali2IotLight.brightness now st devices = some n)
  ∧ (5 ≤ now - st.optTs →
        Dali2IotLight.is_on now st devices = canonical_is_on devices st.device_id
      ∧ Dali2IotLight.brightness now st devices
          = canonical_brightness devices st.device_id) := by
  refine ⟨?_, ?_, ?_⟩
  · intro b hb hlt
    simp [Dali2IotLight.is_on, hb, is_optimistic_state_valid, hlt]
  · intro n hn hlt
    simp [Dali2IotLight.brightness, hn, is_optimistic_state_valid, hlt]
  · intro hge
    have hnot : ¬ (now - st.optTs < 5) := not_lt.mpr hge
    constructor
    · cases hsw : st.opt.switchable <;>
        simp [Dali2IotLight.is_on, hsw, is_optimistic_state_valid, hnot]
    · cases hbr : st.opt.brightness <;>
        simp [Dali2IotLight.brightness, hbr, is_optimistic_state_valid, hnot]

/-- The step outcome of a plain turn-on (no arguments) issued at time 100 on a
device with an empty overlay against an empty snapshot. -/
def exTurnOnResult : StepResult :=
  Dali2IotLight.async_turn_on 100 ⟨1, OptState.empty, 0⟩ [] ⟨none, none, none, none⟩ false

/-- The entity state just after that turn-on's overlay write. -/
def exAfterTurnOn : LightState := ⟨1, exTurnOnResult.opt, exTurnOnResult.optTs⟩

/-- Witness for C2: immediately after the turn-on wrote switchable true, the
on/off read returns true even though the canonical snapshot is empty. -/
theorem overlay_precedence_witness :
    exAfterTurnOn.opt.switchable = some true ∧ (100 : ℚ) - exAfterTurnOn.optTs < 5 ∧
      Dali2IotLight.is_on 100 exAfterTurnOn [] = true := by
  have hts : exAfterTurnOn.optTs = 100 := rfl
  refine ⟨rfl, by rw [hts]; norm_num, ?_⟩
  exact (overlay_precedence 100 exAfterTurnOn []).1 true rfl (by rw [hts]; norm_num)

theorem build_turn_on_data_ne_empty (isOn : Bool) (kw : TurnOnKwargs) :
    (build_turn_on_data isOn kw).isEmpty = false := by
  cases hb : kw.brightness with
  | none => simp [build_turn_on_data, CommandData.isEmpty, brightness_only, hb]
  | some n =>
    by_cases h : (!isOn || !(brightness_only kw)) = true
    · simp [build_turn_on_data, CommandData.isEmpty, h]
    · simp [build_turn_on_data, CommandData.isEmpty, h, hb]

/-- C3: a turn-on or turn-off whose remote call raises leaves the overlay empty,
republishes the state synchronously in the failure path (two publications, the
last with the cleared overlay), and the subsequently displayed on/off state is
the canonical snapshot value, for both device and group entities. -/
theorem clear_on_failure (now now' : ℚ) (st : LightState) (devices : List Device)
    (kw : TurnOnKwargs) (gst : GroupState) (coord : CoordState) :
    ((Dali2IotLight.async_turn_on now st devices kw true).opt = OptState.empty
      ∧ (Dali2IotLight.async_turn_on now st devices kw true).published.length = 2
      ∧ (Dali2IotLight.async_turn_on now st devices kw true).published.getLast?
          = some OptState.empty
      ∧ Dali2IotLight.is_on now'
          ⟨st.device_id, (Dali2IotLight.async_turn_on now st devices kw true).opt,
            (Dali2IotLight.async_turn_on now st devices kw true).optTs⟩ devices
          = canonical_is_on devices st.device_id)
  ∧ ((Dali2IotLight.async_turn_off now st true).opt = OptState.empty
      ∧ (Dali2IotLight.async_turn_off now st true).published.length = 2
      ∧ (Dali2IotLight.async_turn_off now st true).published.getLast? = some OptState.empty
      ∧ Dali2IotLight.is_on now'
          ⟨st.device_id, (Dali2IotLight.async_turn_off now st true).opt,
            (Dali2IotLight.async_turn_off now st true).optTs⟩ devices
          = canonical_is_on devices st.device_id)
  ∧ ((Dali2IotGroupLight.async_turn_on now gst coord kw true).opt = OptState.empty
      ∧ (Dali2IotGroupLight.async_turn_on now gst coord kw true).published.length = 2
      ∧ (Dali2IotGroupLight.async_turn_on now gst coord kw true).published.getLast?
          = some OptState.empty
      ∧ Dali2IotGroupLight.is_on now'
          ⟨gst.group_id, (Dali2IotGroupLight.async_turn_on now gst coord kw true).opt,
            (Dali2IotGroupLight.async_turn_on now gst coord kw true).optTs⟩ coord
          = group_canonical_is_on coord gst.group_id)
  ∧ ((Dali2IotGroupLight.async_turn_off now gst true).opt = OptState.empty
      ∧ (Dali2IotGroupLight.async_turn_off now gst true).published.length = 2
      ∧ (Dali2IotGroupLight.async_turn_off now gst true).published.getLast?
          = some OptState.empty
      ∧ Dali2IotGroupLight.is_on now'
          ⟨gst.group_id, (Dali2IotGroupLight.async_turn_off now gst true).opt,
            (Dali2IotGroupLight.async_turn_off now gst true).optTs⟩ coord
          = group_canonical_is_on coord gst.group_id) := by
  refine ⟨?_, ?_, ?_, ?_⟩
  · simp [Dali2IotLight.async_turn_on, build_turn_on_data_ne_empty,
      Dali2IotLight.is_on, OptState.empty]
  · simp [Dali2IotLight.async_turn_off, Dali2IotLight.is_on, OptState.empty]
  · simp [Dali2IotGroupLight.async_turn_on, build_turn_on_data_ne_empty,
      Dali2IotGroupLight.is_on, OptState.empty]
  · simp [Dali2IotGroupLight.async_turn_off, Dali2IotGroupLight.is_on, OptState.empty]

/-- The step outcome of a turn-on with brightness 128 at time 100 on a device
with an empty overlay (the call succeeds). -/
def c5TurnOn : StepResult :=
  Dali2IotLight.async_turn_on 100 ⟨1, OptState.empty, 0⟩ [] ⟨some 128, none, none, none⟩ false

/-- The entity state after that turn-on. -/
def c5AfterOn : LightState := ⟨1, c5TurnOn.opt, c5TurnOn.optTs⟩

/-- The step outcome of a subsequent successful turn-off at time 101. -/
def c5TurnOff : StepResult := Dali2IotLight.async_turn_off 101 c5AfterOn false

/-- C5 counterexample: after a turn-on with brightness followed by a turn-off,
the overlay still carries the earlier brightness key alongside the turn-off's
switchable field, so a command's overlay write is not a wholesale replacement. -/
theorem overlay_write_not_wholesale :
    c5TurnOff.opt.brightness = some 128 ∧
      c5TurnOff.opt ≠ { switchable := some false, brightness := none } := by
  exact ⟨rfl, by decide⟩

/-- C5 amended: a command's overlay write sets the keys the command carries and
refreshes the shared timestamp, but leaves keys written by earlier commands in
place (they become valid again under the new timestamp); keys disappear only
through clear-on-failure or expiry, not through a later command. -/
theorem overlay_write_updates_in_place (now : ℚ) (st : LightState) (devices : List Device)
    (kw : TurnOnKwargs) (gst : GroupState) (coord : CoordState) :
    ((Dali2IotLight.async_turn_on now st devices kw false).opt
        = { switchable := some true, brightness := oget kw.brightness st.opt.brightness }
      ∧ (Dali2IotLight.async_turn_on now st devices kw false).optTs = now)
  ∧ ((Dali2IotLight.async_turn_off now st false).opt
        = { switchable := some false, brightness := st.opt.brightness }
      ∧ (Dali2IotLight.async_turn_off now st false).optTs = now)
  ∧ ((Dali2IotGroupLight.async_turn_on now gst coord kw false).opt
        = { switchable := some true, brightness := oget kw.brightness gst.opt.brightness }
      ∧ (Dali2IotGroupLight.async_turn_on now gst coord kw false).optTs = now)
  ∧ ((Dali2IotGroupLight.async_turn_off now gst false).opt
        = { switchable := some false, brightness := gst.opt.brightness }
      ∧ (Dali2IotGroupLight.async_turn_off now gst false).optTs = now) := by
  refine ⟨?_, ?_, ?_, ?_⟩
  · simp [Dali2IotLight.async_turn_on, build_turn_on_data_ne_empty]
  · simp [Dali2IotLight.async_turn_off]
  · simp [Dali2IotGroupLight.async_turn_on, build_turn_on_data_ne_empty]
  · simp [Dali2IotGroupLight.async_turn_off]

/-- C9: a turn-on whose only non-transition argument is brightness, issued while
the displayed state is on, produces a payload without the switchable field; in
every other turn-on case the payload carries switchable true.  Both entities
send exactly the payload built from their displayed on/off state. -/
theorem redundant_switchable_suppression :
    (∀ (isOn : Bool) (kw : TurnOnKwargs),
        ((isOn && brightness_only kw) = true → (build_turn_on_data isOn kw).switchable = none)
      ∧ ((isOn && brightness_only kw) = false →
          (build_turn_on_data isOn kw).switchable = some true))
  ∧ (∀ (now : ℚ) (st : LightState) (devices : List Device) (kw : TurnOnKwargs)
        (fails : Bool),
        (Dali2IotLight.async_turn_on now st devices kw fails).sent
          = some (build_turn_on_data (Dali2IotLight.is_on now st devices) kw))
  ∧ (∀ (now : ℚ) (gst : GroupState) (coord : CoordState) (kw : TurnOnKwargs)
        (fails : Bool),
        (Dali2IotGroupLight.async_turn_on now gst coord kw fails).sent
          = some (build_turn_on_data (Dali2IotGroupLight.is_on now gst coord) kw)) := by
  refine ⟨?_, ?_, ?_⟩
  · intro isOn kw
    cases isOn <;> cases hbo : brightness_only kw <;>
      simp_all [build_turn_on_data]
  · intro now st devices kw fails
    cases fails <;> simp [Dali2IotLight.async_turn_on, build_turn_on_data_ne_empty]
  · intro now gst coord kw fails
    cases fails <;> simp [Dali2IotGroupLight.async_turn_on, build_turn_on_data_ne_empty]

/-- Witness for C9: a brightness-only turn-on against an already-on entity omits
switchable, while the same call against an off entity includes it. -/
theorem redundant_switchable_suppression_witness :
    (build_turn_on_data true ⟨some 128, none, none, none⟩).switchable = none
  ∧ (build_turn_on_data false ⟨some 128, none, none, none⟩).switchable = some true :=
  ⟨(redundant_switchable_suppression.1 true ⟨some 128, none, none, none⟩).1 (by decide),
   (redundant_switchable_suppression.1 false ⟨some 128, none, none, none⟩).2 (by decide)⟩

theorem group_is_on_loop_eq_any (devices : List Device) (ms : List Member) :
    group_is_on_loop devices ms = ms.any (member_is_on devices) := by
  induction ms with
  | nil => rfl
  | cons m rest ih =>
    by_cases h : member_is_on devices m <;> simp [group_is_on_loop, h, ih]

/-- C6: with no valid overlay entry for switchable, a group's on/off read is the
logical OR, over the group's members, of the member's device switchable status
in the canonical snapshot. -/
theorem group_or_semantics (now : ℚ) (st : GroupState) (coord : CoordState) (g : DaliGroup)
    (hg : get_group coord.groups st.group_id = some g)
    (hov : st.opt.switchable = none ∨ ¬ (now - st.optTs < 5)) :
    Dali2IotGroupLight.is_on now st coord = g.members.any (member_is_on coord.devices) := by
  have hcanon : group_canonical_is_on coord st.group_id
      = g.members.any (member_is_on coord.devices) := by
    simp [group_canonical_is_on, hg, group_is_on_loop_eq_any]
  rcases hov with h | h
  · simp [Dali2IotGroupLight.is_on, h, hcanon]
  · cases hsw : st.opt.switchable <;>
      simp [Dali2IotGroupLight.is_on, hsw, is_optimistic_state_valid, h, hcanon]

/-- A switched-off device in group 3. -/
def devOff1 : Device :=
  { id := some 1, name := some "L1", address := none, groups := [3]
  , features := [("switchable", fdBool false)] }

/-- A second switched-off device in group 3. -/
def devOff2 : Device :=
  { id := some 2, name := some "L2", address := none, groups := [3]
  , features := [("switchable", fdBool false)] }

/-- A switched-on device in group 3. -/
def devOn3 : Device :=
  { id := some 3, name := some "L3", address := none, groups := [3]
  , features := [("switchable", fdBool true)] }

/-- Coordinator snapshot over members off, off, on. -/
def coordOnOff : CoordState :=
  (coordinator_update ⟨[], []⟩ (.ok [devOff1, devOff2, devOn3])).1

/-- Coordinator snapshot over members off, off. -/
def coordOffOff : CoordState :=
  (coordinator_update ⟨[], []⟩ (.ok [devOff1, devOff2])).1

/-- A group-3 entity with an empty overlay. -/
def gStateIdle : GroupState := ⟨3, OptState.empty, 0⟩

/-- Witness for C6: members off, off, on read true; members off, off read false. -/
theorem group_or_semantics_witness :
    Dali2IotGroupLight.is_on 0 gStateIdle coordOnOff = true ∧
      Dali2IotGroupLight.is_on 0 gStateIdle coordOffOff = false := by
  constructor
  · rw [group_or_semantics 0 gStateIdle coordOnOff _ rfl (Or.inl rfl)]
    decide
  · rw [group_or_semantics 0 gStateIdle coordOffOff _ rfl (Or.inl rfl)]
    decide

theorem collect_brightness_eq_filterMap (devices : List Device) (ms : List Member) :
    collect_brightness devices ms = ms.filterMap (member_brightness devices) := by
  induction ms with
  | nil => rfl
  | cons m rest ih =>
    cases h : member_brightness devices m <;> simp [collect_brightness, h, ih]

/-- C7: with no valid overlay entry for brightness, a group's brightness read is
the truncated binary64 mean of the converted brightness values of exactly the
members whose device exposes dimmable, and no value when none does. -/
theorem group_brightness_mean (now : ℚ) (st : GroupState) (coord : CoordState)
    (g : DaliGroup) (hg : get_group coord.groups st.group_id = some g)
    (hov : st.opt.brightness = none ∨ ¬ (now - st.optTs < 5)) :
    Dali2IotGroupLight.brightness now st coord =
      (if g.members.filterMap (member_brightness coord.devices) = [] then none
       else some ((F64.div
          (F64.ofInt (g.members.filterMap (member_brightness coord.devices)).sum)
          (F64.ofInt
            ((g.members.filterMap (member_brightness coord.devices)).length : Int))).toIntTrunc)) := by
  have hcanon : group_canonical_brightness coord st.group_id =
      (if g.members.filterMap (member_brightness coord.devices) = [] then none
       else some ((F64.div
          (F64.ofInt (g.members.filterMap (member_brightness coord.devices)).sum)
          (F64.ofInt
            ((g.members.filterMap (member_brightness coord.devices)).length : Int))).toIntTrunc)) := by
    simp [group_canonical_brightness, hg, collect_brightness_eq_filterMap]
  rcases hov with h | h
  · simp [Dali2IotGroupLight.brightness, h, hcanon]
  · cases hbr : st.opt.brightness <;>
      simp [Dali2IotGroupLight.brightness, hbr, is_optimistic_state_valid, h, hcanon]

/-- A dimmable device in group 4 at internal brightness 50. -/
def devDim1 : Device :=
  { id := some 1, name := some "D1", address := none, groups := [4]
  , features := [("switchable", fdBool true), ("dimmable", fdNum 50)] }

/-- A dimmable device in group 4 at internal brightness 100. -/
def devDim2 : Device :=
  { id := some 2, name := some "D2", address := none, groups := [4]
  , features := [("switchable", fdBool true), ("dimmable", fdNum 100)] }

/-- Coordinator snapshot over the two dimmable members. -/
def coordDim : CoordState := (coordinator_update ⟨[], []⟩ (.ok [devDim1, devDim2])).1

/-- A group-4 entity with an empty overlay. -/
def gStateDim : GroupState := ⟨4, OptState.empty, 0⟩

/-- The group record the aggregation produces for group 4 over the two dimmable
devices. -/
def dimGroup : DaliGroup :=
  { id := 4, name := "DALI Group 4"
  , members := [mkMember devDim1, mkMember devDim2]
  , features := [("switchable", fdBool true), ("dimmable", fdNum 50)] }

set_option maxRecDepth 8000 in
/-- Witness for C7: members at internal 50 and 100 convert to 127 and 254, whose
binary64 mean truncates to 190, within rounding (1) of 191, the external value
of internal 75. -/
theorem group_brightness_mean_witness :
    Dali2IotGroupLight.brightness 0 gStateDim coordDim = some 190 ∧
      brightness_to_external 75 = 191 ∧
      ((190 : Int) - brightness_to_external 75).natAbs ≤ 1 := by
  refine ⟨?_, by decide, by decide⟩
  rw [group_brightness_mean 0 gStateDim coordDim dimGroup (by decide) (Or.inl rfl)]
  decide

theorem get_device_none_of_no_id (devices : List Device) (mid : Option Int)
    (h : ∀ d ∈ devices, d.id ≠ mid) : get_device devices mid = none := by
  induction devices with
  | nil => rfl
  | cons d rest ih =>
    have hd : d.id ≠ mid := h d (List.mem_cons_self _ _)
    simp only [get_device, if_neg hd]
    exact ih (fun d' hd' => h d' (List.mem_cons_of_mem _ hd'))

/-- A device whose DALI address (5) differs from its id (1), in group 7, switched
on, dimmable, with colour features. -/
def mismDev : Device :=
  { id := some 1, name := some "M", address := some 5, groups := [7]
  , features := [("switchable", fdBool true), ("dimmable", fdNum 80),
      ("colorRGB", ⟨some (.rgb 1 0 0)⟩), ("colorKelvin", fdNum 3000)] }

/-- Coordinator snapshot holding only the mismatched device. -/
def mismCoord : CoordState := (coordinator_update ⟨[], []⟩ (.ok [mismDev])).1

/-- A group-7 entity with an empty overlay. -/
def mismGState : GroupState := ⟨7, OptState.empty, 0⟩

/-- C10: every group state derivation resolves a member through `get_device` on
the member's recorded id, which the aggregator sets to the device's address
(falling back to the id); a member whose id matches no device's id contributes
nothing, so a device whose address differs from its id is silently ignored by
all group reads even though its own state is on. -/
theorem group_reads_use_member_id :
    (∀ (devices : List Device) (m : Member), get_device devices m.id = none →
        member_is_on devices m = false ∧ member_brightness devices m = none ∧
        member_rgb devices m = none ∧ member_color_temp devices m = none)
  ∧ (∀ (devices : List Device) (m : Member), (∀ d ∈ devices, d.id ≠ m.id) →
        get_device devices m.id = none)
  ∧ (∀ d : Device, (mkMember d).id = d.memberId)
  ∧ (Dali2IotGroupLight.is_on 0 mismGState mismCoord = false
      ∧ Dali2IotGroupLight.brightness 0 mismGState mismCoord = none
      ∧ Dali2IotGroupLight.rgb_color mismCoord 7 = none
      ∧ Dali2IotGroupLight.color_temp mismCoord 7 = none
      ∧ canonical_is_on mismCoord.devices 1 = true) := by
  refine ⟨?_, ?_, fun d => rfl, by decide, by decide, by decide, by decide, by decide⟩
  · intro devices m h
    refine ⟨?_, ?_, ?_, ?_⟩
    · simp [member_is_on, h]
    · simp [member_brightness, h]
    · simp [member_rgb, h]
    · simp [member_color_temp, h]
  · intro devices m h
    exact get_device_none_of_no_id devices m.id h

/-- Witness for C10: the mismatched device's member record (id 5) finds no
device in the snapshot, so it contributes nothing to any read. -/
theorem group_reads_use_member_id_witness :
    member_is_on mismCoord.devices (mkMember mismDev) = false ∧
      member_brightness mismCoord.devices (mkMember mismDev) = none ∧
      member_rgb mismCoord.devices (mkMember mismDev) = none ∧
      member_color_temp mismCoord.devices (mkMember mismDev) = none :=
  group_reads_use_member_id.1 mismCoord.devices (mkMember mismDev) (by decide)
